import Mathlib

/-!
Verification of the inspection-dashboard repository (App1 Streamlit app,
App2 FastAPI app, services, and the simple gallery apps).

The Python sources are shallowly embedded below:
- the filter model and the SQL text built by `get_inspections` (App2/app.py)
  and `load_inspections` (App1/app.py) are embedded as Lean string builders
  mirroring the f-strings of the source (surrounding whitespace of the
  Python triple-quoted f-strings is normalized to single spaces, which no
  stated property depends on);
- the Row Store collaborator (the warehouse executing the generated SQL) is
  external to the repository; its execution of the generated WHERE / ORDER
  BY / LIMIT / OFFSET clauses is modelled by executable Lean functions over
  a table given as a list of records, following the collaborator contract:
  equality, inclusive range, substring LIKE, COUNT, conditional SUM, and
  ORDER BY timestamp DESC with LIMIT/OFFSET. The generated query orders by
  timestamp only, so the order among equal timestamps is not determined by
  the query; the model realizes one permissible behavior (a stable sort of
  the table, whose own order is arbitrary);
- `stream_image` (App2), `load_image_from_volume` (App1), the
  thread-per-image fan-out of App1 `main` / app_multithreading `main`, and
  `Lakebase.query` are embedded as functions parameterized by an
  environment giving the outcome of each external call (blob download,
  SQL execution), with effect traces where invocation counts matter.

Machine-level details that no claim touches (the float `confidence_score`
field, byte contents) are modelled abstractly (`Bytes` as a list of
naturals).
-/

/-- Byte strings handed back by the Blob Store; contents are opaque to every
property below, so bytes are modelled as naturals. -/
abbrev Bytes := List Nat

/-- One row of the inspections table (InspectionRecord).  `timestamp` is an
instant at second precision, modelled as a natural; `date` is the ISO
calendar-date string derived from it (ISO strings compare like dates).
The float `confidence_score` column is not touched by any claim and is
omitted from the model. -/
structure Inspection where
  inspection_id : String
  factory_id : String
  camera_id : String
  timestamp : Nat
  image_path : String
  prediction : String
  defect_type : Option String
  inference_time_ms : Nat
  model_version : String
  date : String
deriving DecidableEq, Repr

/-- One row of the factories table. -/
structure Factory where
  factory_id : String
  region : String
  cameras : List String
deriving DecidableEq, Repr

/-- The optional user filters accepted by `get_inspections` (App2) /
`load_inspections` (App1).  App1 has no `region` parameter; its embedding
below ignores the field. -/
structure FilterSet where
  region : Option String := none
  factory : Option String := none
  camera : Option String := none
  prediction : Option String := none
  defect_type : Option String := none
  search : Option String := none
  date_from : Option String := none
  date_to : Option String := none
deriving DecidableEq, Repr

/-- Python truthiness of an optional string (`if factory:`): both `None`
and the empty string are falsy. -/
def truthy : Option String → Bool
  | none => false
  | some s => !s.isEmpty

/-- The single-quote character, used when rebuilding the interpolated SQL
text of the source. -/
def sqc : String := "\x27"

/-- `if defect_type and defect_type != "All":` -/
def dtActive (f : FilterSet) : Bool :=
  truthy f.defect_type && (f.defect_type.getD "") != "All"

/-- The `where_clauses` list built by both `get_inspections` and
`load_inspections`: one interpolated conjunct per present filter field.
`region` is handled separately (stats query only) and never appears here. -/
def where_clauses (f : FilterSet) : List String :=
  (if truthy f.factory then ["factory_id = " ++ sqc ++ f.factory.getD "" ++ sqc] else []) ++
  (if truthy f.camera then ["camera_id = " ++ sqc ++ f.camera.getD "" ++ sqc] else []) ++
  (if truthy f.prediction then ["prediction = " ++ sqc ++ f.prediction.getD "" ++ sqc] else []) ++
  (if dtActive f then ["defect_type = " ++ sqc ++ f.defect_type.getD "" ++ sqc] else []) ++
  (if truthy f.search then ["inspection_id LIKE " ++ sqc ++ "%" ++ f.search.getD "" ++ "%" ++ sqc] else []) ++
  (if truthy f.date_from then ["date >= " ++ sqc ++ f.date_from.getD "" ++ sqc] else []) ++
  (if truthy f.date_to then ["date <= " ++ sqc ++ f.date_to.getD "" ++ sqc] else [])

/-- `where_sql = " AND ".join(where_clauses) if where_clauses else "1=1"` -/
def where_sql (f : FilterSet) : String :=
  if where_clauses f = [] then "1=1"
  else String.intercalate " AND " (where_clauses f)

/-- The count query text (whitespace normalized). -/
def count_query (f : FilterSet) : String :=
  "SELECT COUNT(*) as count FROM serverless_opm_catalog.opm.inspections WHERE "
    ++ where_sql f

/-- The page-data query text (whitespace normalized). -/
def data_query (f : FilterSet) (page per_page : Nat) : String :=
  "SELECT inspection_id, factory_id, camera_id, timestamp, image_path, "
    ++ "prediction, confidence_score, defect_type, inference_time_ms, "
    ++ "model_version, date FROM serverless_opm_catalog.opm.inspections WHERE "
    ++ where_sql f
    ++ " ORDER BY timestamp DESC LIMIT " ++ toString per_page
    ++ " OFFSET " ++ toString ((page - 1) * per_page)

/-- The effective WHERE condition of the App2 stats query: when `region` is
truthy the source emits `WHERE f.region = '<region>' AND {where_sql}` over
a join with the factories table, otherwise `WHERE {where_sql}`. -/
def stats_where (f : FilterSet) : String :=
  if truthy f.region then
    "f.region = " ++ sqc ++ f.region.getD "" ++ sqc ++ " AND " ++ where_sql f
  else where_sql f

/-- The App2 stats query text (whitespace normalized). -/
def stats_query (f : FilterSet) : String :=
  if truthy f.region then
    "SELECT COUNT(*) as total, SUM(CASE WHEN i.prediction = " ++ sqc ++ "OK" ++ sqc
      ++ " THEN 1 ELSE 0 END) as ok_count, SUM(CASE WHEN i.prediction = " ++ sqc ++ "KO" ++ sqc
      ++ " THEN 1 ELSE 0 END) as ko_count"
      ++ " FROM serverless_opm_catalog.opm.inspections i"
      ++ " JOIN serverless_opm_catalog.opm.factories f ON i.factory_id = f.factory_id WHERE "
      ++ stats_where f
  else
    "SELECT COUNT(*) as total, SUM(CASE WHEN prediction = " ++ sqc ++ "OK" ++ sqc
      ++ " THEN 1 ELSE 0 END) as ok_count, SUM(CASE WHEN prediction = " ++ sqc ++ "KO" ++ sqc
      ++ " THEN 1 ELSE 0 END) as ko_count"
      ++ " FROM serverless_opm_catalog.opm.inspections WHERE "
      ++ stats_where f

/-- Number of truthy filter fields among the seven that feed
`where_clauses` (all of FilterSet except `region`). -/
def present_count (f : FilterSet) : Nat :=
  (if truthy f.factory then 1 else 0) +
  (if truthy f.camera then 1 else 0) +
  (if truthy f.prediction then 1 else 0) +
  (if dtActive f then 1 else 0) +
  (if truthy f.search then 1 else 0) +
  (if truthy f.date_from then 1 else 0) +
  (if truthy f.date_to then 1 else 0)

/-- Lexicographic comparison of character lists, the order the Row Store
uses for string (and hence ISO-date) comparison. -/
def charsLe : List Char → List Char → Bool
  | [], _ => true
  | _ :: _, [] => false
  | a :: xs, b :: ys => if a < b then true else if a == b then charsLe xs ys else false

/-- String `<=` as evaluated by the Row Store on date strings. -/
def strLe (a b : String) : Bool := charsLe a.toList b.toList

/-- Does `needle` occur at the head of `hay`? -/
def charsStart : List Char → List Char → Bool
  | _, [] => true
  | [], _ :: _ => false
  | a :: xs, b :: ys => a == b && charsStart xs ys

/-- Does `needle` occur anywhere inside `hay`?  The meaning of
`LIKE percent-needle-percent` for wildcard-free user input. -/
def charsHave : List Char → List Char → Bool
  | [], needle => needle.isEmpty
  | hay@(_ :: t), needle => charsStart hay needle || charsHave t needle

/-- Substring test on strings. -/
def strHas (hay needle : String) : Bool := charsHave hay.toList needle.toList

/-- `s.startswith(pre)` of Python, on the characters of the strings. -/
def strStart (s pre : String) : Bool := charsStart s.toList pre.toList

/-- Row Store evaluation of the conjunctive predicate `where_sql f` on one
inspection row: one semantic conjunct per clause emitted by
`where_clauses`, true when no clause is present (`1=1`). -/
def matchesFilter (f : FilterSet) (i : Inspection) : Bool :=
  (!truthy f.factory || i.factory_id == f.factory.getD "") &&
  (!truthy f.camera || i.camera_id == f.camera.getD "") &&
  (!truthy f.prediction || i.prediction == f.prediction.getD "") &&
  (!dtActive f || i.defect_type == some (f.defect_type.getD "")) &&
  (!truthy f.search || strHas i.inspection_id (f.search.getD "")) &&
  (!truthy f.date_from || strLe (f.date_from.getD "") i.date) &&
  (!truthy f.date_to || strLe i.date (f.date_to.getD ""))

/-- The ordering the page query requests: `ORDER BY timestamp DESC`. -/
def tsGe (a b : Inspection) : Prop := b.timestamp ≤ a.timestamp

instance : DecidableRel tsGe := fun a b => Nat.decLe b.timestamp a.timestamp

instance : IsTotal Inspection tsGe :=
  ⟨fun a b => Nat.le_total b.timestamp a.timestamp⟩

instance : IsTrans Inspection tsGe :=
  ⟨fun _ _ _ hab hbc => Nat.le_trans hbc hab⟩

/-- Row Store execution of `ORDER BY timestamp DESC`: a stable sort of the
matching rows.  The query text constrains only the timestamp order; ties
fall back to the (arbitrary) physical order of the table, realized here by
stability. -/
def sortByTimestampDesc (rows : List Inspection) : List Inspection :=
  List.insertionSort tsGe rows

/-- Rows matching the current filter (the count query counts these). -/
def filtered_inspections (table : List Inspection) (f : FilterSet) : List Inspection :=
  table.filter (fun i => matchesFilter f i)

/-- `total_count` produced by the count query. -/
def total_count_of (table : List Inspection) (f : FilterSet) : Nat :=
  (filtered_inspections table f).length

/-- The rows of the requested page:
`ORDER BY timestamp DESC LIMIT per_page OFFSET (page-1)*per_page`. -/
def page_rows (table : List Inspection) (f : FilterSet) (page per_page : Nat) : List Inspection :=
  ((sortByTimestampDesc (filtered_inspections table f)).drop ((page - 1) * per_page)).take per_page

/-- `total_pages = (total_count + per_page - 1) // per_page` -/
def total_pages_of (total_count per_page : Nat) : Nat :=
  (total_count + per_page - 1) / per_page

/-- SQL inner join of the filter-matching inspections with the factories
table on `factory_id`, restricted to `f.region = region`; each matching
factory row contributes one joined row (so duplicated factory keys would
duplicate inspections, as in SQL). -/
def region_join (table : List Inspection) (factories : List Factory)
    (f : FilterSet) (region : String) : List Inspection :=
  (filtered_inspections table f).flatMap (fun i =>
    (factories.filter (fun fa => fa.factory_id == i.factory_id && fa.region == region)).map
      (fun _ => i))

/-- The rows the App2 stats query aggregates over: with a truthy `region`,
the region join; otherwise exactly the filter-matching rows. -/
def stats_rows (table : List Inspection) (factories : List Factory)
    (f : FilterSet) : List Inspection :=
  if truthy f.region then region_join table factories f (f.region.getD "")
  else filtered_inspections table f

/-- `pagination` block of the envelope. -/
structure Pagination where
  page : Nat
  per_page : Nat
  total_count : Nat
  total_pages : Nat
deriving DecidableEq, Repr

/-- `stats` block of the envelope. -/
structure Stats where
  total : Nat
  filtered : Nat
  ok_count : Nat
  ko_count : Nat
deriving DecidableEq, Repr

/-- The ResultEnvelope returned by `get_inspections` / `load_inspections`.
The source additionally reformats each row into a JSON dict field by field,
which preserves the number and order of rows; `inspections` here holds the
rows themselves. -/
structure ResultEnvelope where
  inspections : List Inspection
  pagination : Pagination
  stats : Stats
deriving DecidableEq, Repr

/-- The ResultEnvelope assembled by the `GET /api/inspections` handler
`get_inspections` of App2/app.py on its successful path: count, page and
stats queries under the interpolated filter predicate.  The handler also
has a failure path — the `int()` coercion of the NULL SUM aggregates over
zero rows raises — which is embedded in `get_inspections_result` below;
every envelope the handler actually returns is one of these. -/
def get_inspections (table : List Inspection) (factories : List Factory)
    (f : FilterSet) (page per_page : Nat) : ResultEnvelope :=
  { inspections := page_rows table f page per_page
    pagination :=
      { page := page
        per_page := per_page
        total_count := total_count_of table f
        total_pages := total_pages_of (total_count_of table f) per_page }
    stats :=
      { total := (stats_rows table factories f).length
        filtered := total_count_of table f
        ok_count := ((stats_rows table factories f).filter (fun i => i.prediction == "OK")).length
        ko_count := ((stats_rows table factories f).filter (fun i => i.prediction == "KO")).length } }

/-- The ResultEnvelope assembled by `load_inspections` of App1/app.py on
its successful path: identical to `get_inspections` except that there is
no `region` parameter — the stats query always aggregates exactly the
filter-matching rows.  The except-branch fallback envelope of the source
is embedded in `load_inspections_result` below. -/
def load_inspections (table : List Inspection) (f : FilterSet)
    (page per_page : Nat) : ResultEnvelope :=
  { inspections := page_rows table f page per_page
    pagination :=
      { page := page
        per_page := per_page
        total_count := total_count_of table f
        total_pages := total_pages_of (total_count_of table f) per_page }
    stats :=
      { total := (filtered_inspections table f).length
        filtered := total_count_of table f
        ok_count := ((filtered_inspections table f).filter (fun i => i.prediction == "OK")).length
        ko_count := ((filtered_inspections table f).filter (fun i => i.prediction == "KO")).length } }

/-- `ALLOWED_PREFIX` of App1/app.py and App2/app.py. -/
def ALLOWED_PREFIX : String := "/Volumes/serverless_opm_catalog/opm/quality/images-highres/"

/-- `content_type_map` of `stream_image`. -/
def content_type_map : List (String × String) :=
  [(".jpg", "image/jpeg"), (".jpeg", "image/jpeg"), (".png", "image/png"),
   (".gif", "image/gif"), (".webp", "image/webp")]

/-- Characters of the last `/`-separated component of a path. -/
def lastComponent (cs : List Char) : List Char :=
  ((cs.reverse.takeWhile (fun c => c != '/')).reverse)

/-- Characters from the final dot of a file name (`Path(path).suffix`):
empty when the name has no dot or only a leading dot. -/
def suffixChars (name : List Char) : List Char :=
  let tail := (name.reverse.takeWhile (fun c => c != '.')).reverse
  if tail.length + 1 < name.length ∨ (tail.length + 1 = name.length ∧ name.head? ≠ some '.') then
    '.' :: tail
  else []

/-- `Path(path).suffix.lower()` -/
def ext_of (path : String) : String :=
  String.mk ((suffixChars (lastComponent path.toList)).map Char.toLower)

/-- `content_type_map.get(ext, 'application/octet-stream')` -/
def content_type_of (path : String) : String :=
  (content_type_map.lookup (ext_of path)).getD "application/octet-stream"

/-- An HTTPException raised by a handler. -/
structure HTTPError where
  status_code : Nat
  detail : String
deriving DecidableEq, Repr

/-- The streamed response of `stream_image`. -/
structure ImageResponse where
  media_type : String
  content : Bytes
deriving DecidableEq, Repr

/-- `GET /api/image` handler `stream_image` of App2/app.py.  `download`
is the Blob Store collaborator (`WorkspaceClient().files.download`),
returning bytes or failing.  The second component of the result is the
list of paths actually passed to the Blob Store during the call. -/
def stream_image (download : String → Except String Bytes) (path : String) :
    Except HTTPError ImageResponse × List String :=
  if path.isEmpty then
    (Except.error ⟨400, "path is required"⟩, [])
  else if !(strStart path ALLOWED_PREFIX) then
    (Except.error ⟨400, "path must start with " ++ ALLOWED_PREFIX⟩, [])
  else
    match download path with
    | Except.ok bs => (Except.ok ⟨content_type_of path, bs⟩, [path])
    | Except.error e => (Except.error ⟨500, "Failed to stream image: " ++ e⟩, [path])

/-- `load_image_from_volume` of App1/app.py: never raises — empty path,
path outside the allowed prefix, and any download failure all return
`none`; only a successful download returns bytes. -/
def load_image_from_volume (download : String → Except String Bytes)
    (image_path : String) : Option Bytes :=
  if image_path.isEmpty then none
  else if !(strStart image_path ALLOWED_PREFIX) then none
  else
    match download image_path with
    | Except.ok bs => some bs
    | Except.error _ => none

/-- What the body of one image-loading thread does with its path before the
`join(timeout)` deadline: it runs to completion with a result, raises, or
is still running when the join times out. -/
inductive ItemBehavior where
  | completes (r : Option Bytes)
  | raises (e : String)
  | hangs
deriving DecidableEq, Repr

/-- The per-thread result slots of `ImageLoaderThread` (App1) /
`PhotoLoader` (app_multithreading): each thread object owns its two fields;
`run` fills them from its own path only, and a thread that is still
running when `join(timeout)` returns has both fields unset. -/
structure FetchSlot where
  image_bytes : Option Bytes
  error : Option String
deriving DecidableEq, Repr

/-- State of one thread slot after `start()` and `join(timeout)`. -/
def slotAfterJoin : ItemBehavior → FetchSlot
  | ItemBehavior.completes r => ⟨r, none⟩
  | ItemBehavior.raises e => ⟨none, some e⟩
  | ItemBehavior.hangs => ⟨none, none⟩

/-- The fan-out of App1 `main` / app_multithreading `main`: one thread per
path, started in input order, each joined with a per-item timeout, results
read back positionally (`threads[i + j]` against `inspections[i + j]`,
`zip(threads, inspections)`).  `env` gives the behavior of the underlying
fetch for each path. -/
def fetchAll (env : String → ItemBehavior) (paths : List String) : List FetchSlot :=
  paths.map (fun p => slotAfterJoin (env p))

/-- A row returned by the Lakebase cursor (a dict; contents opaque). -/
abbrev Row := List (String × String)

/-- The connection-level calls `Lakebase.query` makes on the psycopg2
connection, in order. -/
inductive DbAction where
  | execute (sql : String)
  | fetchRows
  | commit
  | rollback
deriving DecidableEq, Repr

/-- Transaction state of the psycopg2 connection: `execute` opens a
transaction, `commit`/`rollback` end it. -/
inductive TxState where
  | idle
  | inTransaction
deriving DecidableEq, Repr

/-- Transaction-state transition of one connection call. -/
def txAfter : TxState → DbAction → TxState
  | _, DbAction.execute _ => TxState.inTransaction
  | s, DbAction.fetchRows => s
  | _, DbAction.commit => TxState.idle
  | _, DbAction.rollback => TxState.idle

/-- Transaction state after a trace of connection calls. -/
def finalTx (trace : List DbAction) : TxState :=
  trace.foldl txAfter TxState.idle

/-- `Lakebase.query` of App2/services/lakebase.py (same file in App1):
execute + fetchall inside a try, then commit and return the rows; on any
exception, rollback and re-raise wrapped as `Query failed: ...`.  `run`
is the database executing the statement and serving the fetch (the two
steps inside the try before `commit`); commit and rollback themselves are
modelled as succeeding.  The second component is the trace of
connection-level calls in order. -/
def Lakebase_query (run : String → Except String (List Row)) (sql_query : String) :
    Except String (List Row) × List DbAction :=
  match run sql_query with
  | Except.ok rows =>
      (Except.ok rows, [DbAction.execute sql_query, DbAction.fetchRows, DbAction.commit])
  | Except.error e =>
      (Except.error ("Query failed: " ++ e), [DbAction.execute sql_query, DbAction.rollback])

/-- SQL `SUM(CASE WHEN ... THEN 1 ELSE 0 END)` over the aggregated rows:
NULL (delivered as `None` in the fetched row) when zero rows are
aggregated, otherwise the count of aggregated rows satisfying the
condition. -/
def sql_sum_case (rows : List Inspection) (p : Inspection → Bool) : Option Nat :=
  if rows.isEmpty then none else some ((rows.filter p).length)

/-- Python `int(...)` applied to a fetched aggregate that may be SQL NULL:
raises `TypeError` when the value is `None` (the message string stands in
for CPython's wording). -/
def int_of_sql (v : Option Nat) : Except String Nat :=
  match v with
  | some n => Except.ok n
  | none => Except.error "TypeError: int() argument must not be NoneType"

/-- The `GET /api/inspections` handler of App2/app.py with its
`try/except`: the stats row always exists (an aggregate query returns one
row), but its `ok_count`/`ko_count` SUMs are NULL whenever zero rows are
aggregated, so `int(stats.get("ok_count", 0))` raises `TypeError` there
and the except-branch turns it into HTTP 500
(`Failed to load inspections: ...`).  Row Store failures themselves
(QueryExecutionError) are outside this model. -/
def get_inspections_result (table : List Inspection) (factories : List Factory)
    (f : FilterSet) (page per_page : Nat) : Except HTTPError ResultEnvelope :=
  match int_of_sql (sql_sum_case (stats_rows table factories f) (fun i => i.prediction == "OK")),
        int_of_sql (sql_sum_case (stats_rows table factories f) (fun i => i.prediction == "KO")) with
  | Except.ok okc, Except.ok koc =>
      Except.ok
        { inspections := page_rows table f page per_page
          pagination :=
            { page := page
              per_page := per_page
              total_count := total_count_of table f
              total_pages := total_pages_of (total_count_of table f) per_page }
          stats :=
            { total := (stats_rows table factories f).length
              filtered := total_count_of table f
              ok_count := okc
              ko_count := koc } }
  | Except.error e, _ => Except.error ⟨500, "Failed to load inspections: " ++ e⟩
  | _, Except.error e => Except.error ⟨500, "Failed to load inspections: " ++ e⟩

/-- `load_inspections` of App1/app.py with its `try/except`: on the same
`int(None)` `TypeError` (raised exactly when the filter matches zero
rows, since App1 aggregates the filter-matching rows) the except branch
returns the fallback envelope whose pagination block hard-codes
`page = 1` with zero counts. -/
def load_inspections_result (table : List Inspection) (f : FilterSet)
    (page per_page : Nat) : ResultEnvelope :=
  match int_of_sql (sql_sum_case (filtered_inspections table f) (fun i => i.prediction == "OK")),
        int_of_sql (sql_sum_case (filtered_inspections table f) (fun i => i.prediction == "KO")) with
  | Except.ok okc, Except.ok koc =>
      { inspections := page_rows table f page per_page
        pagination :=
          { page := page
            per_page := per_page
            total_count := total_count_of table f
            total_pages := total_pages_of (total_count_of table f) per_page }
        stats :=
          { total := (filtered_inspections table f).length
            filtered := total_count_of table f
            ok_count := okc
            ko_count := koc } }
  | _, _ =>
      { inspections := []
        pagination := { page := 1, per_page := per_page, total_count := 0, total_pages := 0 }
        stats := { total := 0, filtered := 0, ok_count := 0, ko_count := 0 } }

/-- Decidable equality of `Except` results, for evaluating the handler
models on concrete inputs. -/
instance {e a : Type} [DecidableEq e] [DecidableEq a] : DecidableEq (Except e a) := fun x y =>
  match x, y with
  | Except.ok u, Except.ok v =>
      if h : u = v then isTrue (by rw [h]) else isFalse (fun hc => h (Except.ok.inj hc))
  | Except.error u, Except.error v =>
      if h : u = v then isTrue (by rw [h]) else isFalse (fun hc => h (Except.error.inj hc))
  | Except.ok _, Except.error _ => isFalse (fun hc => Except.noConfusion hc)
  | Except.error _, Except.ok _ => isFalse (fun hc => Except.noConfusion hc)

/-- A sample OK record. -/
def rOK : Inspection :=
  ⟨"INSP-2025-001", "F1", "CAM1", 10, "/p/1.jpg", "OK", none, 5, "v1", "2025-01-01"⟩

/-- A sample KO record. -/
def rKO : Inspection :=
  ⟨"INSP-2025-002", "F1", "CAM1", 20, "/p/2.jpg", "KO", some "crack", 6, "v1", "2025-01-02"⟩

/-! ## Helper lemmas -/

theorem total_pages_of_eq_ceil (tc pp : Nat) (h : 1 ≤ pp) :
    ((total_pages_of tc pp : ℤ) = ⌈(tc : ℚ) / (pp : ℚ)⌉) ∧ (total_pages_of tc pp = 0 ↔ tc = 0) := by
  have hpp0 : 0 < pp := h
  have hppQ : (0 : ℚ) < (pp : ℚ) := by exact_mod_cast hpp0
  have hdef : total_pages_of tc pp = tc ⌈/⌉ pp := rfl
  have hle : tc ≤ pp * (tc ⌈/⌉ pp) := by
    simpa [smul_eq_mul] using le_smul_ceilDiv (b := tc) hpp0
  have hiff : ∀ c : Nat, tc ⌈/⌉ pp ≤ c ↔ tc ≤ pp * c := fun c => by
    simpa [smul_eq_mul] using ceilDiv_le_iff_le_smul (b := tc) (c := c) hpp0
  constructor
  · rw [hdef]
    symm
    rw [Int.ceil_eq_iff]
    constructor
    · rw [lt_div_iff₀ hppQ]
      rcases Nat.eq_zero_or_pos (tc ⌈/⌉ pp) with hq | hq
      · rw [hq]
        push_cast
        nlinarith [hppQ]
      · obtain ⟨k, hk⟩ := Nat.exists_eq_add_of_le hq
        have hklt : pp * k < tc := by
          by_contra hcon
          push_neg at hcon
          have := (hiff k).mpr hcon
          omega
        have hkq : ((pp * k : ℕ) : ℚ) < (tc : ℚ) := by exact_mod_cast hklt
        rw [hk]
        push_cast
        push_cast at hkq
        nlinarith [hkq]
    · rw [div_le_iff₀ hppQ]
      have hq2 : ((tc : ℕ) : ℚ) ≤ ((pp * (tc ⌈/⌉ pp) : ℕ) : ℚ) := by exact_mod_cast hle
      push_cast at hq2
      push_cast
      linarith [hq2]
  · rw [hdef]
    simpa using hiff 0

theorem le_mul_total_pages (tc pp : Nat) (h : 1 ≤ pp) : tc ≤ pp * total_pages_of tc pp := by
  simpa [smul_eq_mul] using le_smul_ceilDiv (b := tc) (show 0 < pp from h)

theorem length_page_rows (table : List Inspection) (f : FilterSet) (page per_page : Nat) :
    (page_rows table f page per_page).length
      = min per_page (total_count_of table f - (page - 1) * per_page) := by
  rw [page_rows, List.length_take, List.length_drop, sortByTimestampDesc,
    List.length_insertionSort]
  rfl

/-! ## Claims -/

/-- C1: for every query result (any table, factories, filters and page,
with `per_page ≥ 1` as enforced by the request validation), the pagination
block of both `get_inspections` (App2) and `load_inspections` (App1)
satisfies `total_pages = ceil(total_count / per_page)`, and
`total_pages = 0` exactly when `total_count = 0`. -/
theorem C1_total_pages_is_ceil (table : List Inspection) (factories : List Factory)
    (f : FilterSet) (page per_page : Nat) (hpp : 1 ≤ per_page) :
    (((get_inspections table factories f page per_page).pagination.total_pages : ℤ)
        = ⌈((get_inspections table factories f page per_page).pagination.total_count : ℚ)
            / (per_page : ℚ)⌉)
    ∧ ((get_inspections table factories f page per_page).pagination.total_pages = 0
        ↔ (get_inspections table factories f page per_page).pagination.total_count = 0)
    ∧ (((load_inspections table f page per_page).pagination.total_pages : ℤ)
        = ⌈((load_inspections table f page per_page).pagination.total_count : ℚ)
            / (per_page : ℚ)⌉)
    ∧ ((load_inspections table f page per_page).pagination.total_pages = 0
        ↔ (load_inspections table f page per_page).pagination.total_count = 0) := by
  have h := total_pages_of_eq_ceil (total_count_of table f) per_page hpp
  exact ⟨h.1, h.2, h.1, h.2⟩

/-- Witness for C1 at a concrete input. -/
theorem C1_total_pages_is_ceil_witness :
    ((((get_inspections [] [] {} 1 8).pagination.total_pages : ℤ)
        = ⌈((get_inspections [] [] {} 1 8).pagination.total_count : ℚ) / (8 : ℚ)⌉)
    ∧ ((get_inspections [] [] {} 1 8).pagination.total_pages = 0
        ↔ (get_inspections [] [] {} 1 8).pagination.total_count = 0)
    ∧ (((load_inspections [] {} 1 8).pagination.total_pages : ℤ)
        = ⌈((load_inspections [] {} 1 8).pagination.total_count : ℚ) / (8 : ℚ)⌉)
    ∧ ((load_inspections [] {} 1 8).pagination.total_pages = 0
        ↔ (load_inspections [] {} 1 8).pagination.total_count = 0)) :=
  C1_total_pages_is_ceil [] [] {} 1 8 (by decide)

set_option maxRecDepth 4000 in
/-- C2 (counterexample): when the filter matches zero records, every page
`>= 1` lies beyond `total_pages = 0`, the stats SUM aggregates are NULL,
and `int(None)` raises — App2 answers HTTP 500 instead of an envelope,
and App1 returns its except-branch fallback whose pagination block
hard-codes `page = 1` (not the requested page 2): a page beyond
`total_pages` over an empty match IS an error, not an empty slice with
the correctly computed pagination block. -/
theorem C2_zero_match_error_counterexample :
    total_pages_of (total_count_of [rKO] { prediction := some "OK" }) 8 = 0
    ∧ get_inspections_result [rKO] [] { prediction := some "OK" } 2 8
        = Except.error ⟨500, "Failed to load inspections: "
            ++ "TypeError: int() argument must not be NoneType"⟩
    ∧ (load_inspections_result [rKO] { prediction := some "OK" } 2 8).pagination
        = { page := 1, per_page := 8, total_count := 0, total_pages := 0 } := by
  decide

/-- C2 (amended): for every FilterSet, `page ≥ 1` and `per_page ∈ [1,100]`:
when the stats query aggregates at least one row, the handlers return the
normal envelope, whose inspections slice has length
`min(per_page, max(0, total_count - (page-1)*per_page))` and whose
pagination block is computed as usual, so a page beyond `total_pages`
over a nonempty aggregate returns the empty slice without an error; but
when zero rows are aggregated (in App1 exactly when `total_count = 0`),
the NULL SUM makes `int()` raise, App2 fails with HTTP 500 and App1
returns its fallback envelope with `page` hard-coded to 1. -/
theorem C2_page_slice_length_amended (table : List Inspection) (factories : List Factory)
    (f : FilterSet) (page per_page : Nat)
    (hpage : 1 ≤ page) (hpp : 1 ≤ per_page) (hpp100 : per_page ≤ 100) :
    (stats_rows table factories f ≠ [] →
      get_inspections_result table factories f page per_page
        = Except.ok (get_inspections table factories f page per_page))
    ∧ (((get_inspections table factories f page per_page).inspections.length : ℤ)
        = min (per_page : ℤ)
            (max 0 (((get_inspections table factories f page per_page).pagination.total_count : ℤ)
              - ((page : ℤ) - 1) * per_page)))
    ∧ ((get_inspections table factories f page per_page).pagination.total_pages < page →
        (get_inspections table factories f page per_page).inspections = [])
    ∧ (get_inspections table factories f page per_page).pagination
        = { page := page, per_page := per_page, total_count := total_count_of table f,
            total_pages := total_pages_of (total_count_of table f) per_page }
    ∧ (stats_rows table factories f = [] →
      get_inspections_result table factories f page per_page
        = Except.error ⟨500, "Failed to load inspections: "
            ++ "TypeError: int() argument must not be NoneType"⟩)
    ∧ (filtered_inspections table f ≠ [] →
      load_inspections_result table f page per_page
        = load_inspections table f page per_page)
    ∧ (filtered_inspections table f = [] →
      load_inspections_result table f page per_page
        = { inspections := []
            pagination := { page := 1, per_page := per_page, total_count := 0, total_pages := 0 }
            stats := { total := 0, filtered := 0, ok_count := 0, ko_count := 0 } }) := by
  refine ⟨?_, ?_, ?_, rfl, ?_, ?_, ?_⟩
  · intro h
    have hne : (stats_rows table factories f).isEmpty = false := by
      cases hrw : stats_rows table factories f
      · exact absurd hrw h
      · rfl
    simp [get_inspections_result, sql_sum_case, hne, int_of_sql, get_inspections]
  · have hlen : (get_inspections table factories f page per_page).inspections.length
        = min per_page (total_count_of table f - (page - 1) * per_page) :=
      length_page_rows table f page per_page
    generalize ho : (page - 1) * per_page = o at hlen
    have hcast : ((o : ℕ) : ℤ) = ((page : ℤ) - 1) * per_page := by
      rw [← ho]
      push_cast
      have h1 : ((page - 1 : ℕ) : ℤ) = (page : ℤ) - 1 := by omega
      rw [h1]
    rw [← hcast]
    have hpag : (get_inspections table factories f page per_page).pagination.total_count
        = total_count_of table f := rfl
    rw [hpag]
    omega
  · intro hlt
    have hle1 : total_count_of table f
        ≤ per_page * total_pages_of (total_count_of table f) per_page :=
      le_mul_total_pages _ _ hpp
    have hfin : total_count_of table f ≤ (page - 1) * per_page := by
      have h2 : total_pages_of (total_count_of table f) per_page ≤ page - 1 := by
        have : total_pages_of (total_count_of table f) per_page < page := hlt
        omega
      calc total_count_of table f
          ≤ per_page * total_pages_of (total_count_of table f) per_page := hle1
        _ = total_pages_of (total_count_of table f) per_page * per_page :=
            Nat.mul_comm _ _
        _ ≤ (page - 1) * per_page := Nat.mul_le_mul_right per_page h2
    show page_rows table f page per_page = []
    rw [page_rows]
    have hdrop : (sortByTimestampDesc (filtered_inspections table f)).drop
        ((page - 1) * per_page) = [] := by
      rw [List.drop_eq_nil_iff, sortByTimestampDesc, List.length_insertionSort]
      exact hfin
    rw [hdrop, List.take_nil]
  · intro h
    simp [get_inspections_result, sql_sum_case, h, int_of_sql]
  · intro h
    have hne : (filtered_inspections table f).isEmpty = false := by
      cases hrw : filtered_inspections table f
      · exact absurd hrw h
      · rfl
    simp [load_inspections_result, sql_sum_case, hne, int_of_sql, load_inspections]
  · intro h
    simp [load_inspections_result, sql_sum_case, h, int_of_sql]

set_option maxRecDepth 4000 in
/-- Witness for C2 (amended) at concrete inputs: a nonempty match returns
the normal envelope; a zero-match filter makes App2 answer 500 and App1
return the page-1 fallback. -/
theorem C2_page_slice_length_amended_witness :
    (get_inspections_result [rOK, rKO] [] {} 1 8
        = Except.ok (get_inspections [rOK, rKO] [] {} 1 8))
    ∧ ((get_inspections [rOK, rKO] [] {} 1 8).pagination.total_pages < 1 →
        (get_inspections [rOK, rKO] [] {} 1 8).inspections = [])
    ∧ (get_inspections_result [rKO] [] { prediction := some "OK" } 2 8
        = Except.error ⟨500, "Failed to load inspections: "
            ++ "TypeError: int() argument must not be NoneType"⟩)
    ∧ (load_inspections_result [rOK, rKO] {} 1 8 = load_inspections [rOK, rKO] {} 1 8)
    ∧ (load_inspections_result [rKO] { prediction := some "OK" } 2 8
        = { inspections := []
            pagination := { page := 1, per_page := 8, total_count := 0, total_pages := 0 }
            stats := { total := 0, filtered := 0, ok_count := 0, ko_count := 0 } }) :=
  ⟨(C2_page_slice_length_amended [rOK, rKO] [] {} 1 8 (by decide) (by decide) (by decide)).1
      (by decide),
   (C2_page_slice_length_amended [rOK, rKO] [] {} 1 8 (by decide) (by decide)
      (by decide)).2.2.1,
   (C2_page_slice_length_amended [rKO] [] { prediction := some "OK" } 2 8 (by decide) (by decide)
      (by decide)).2.2.2.2.1 (by decide),
   (C2_page_slice_length_amended [rOK, rKO] [] {} 1 8 (by decide) (by decide)
      (by decide)).2.2.2.2.2.1 (by decide),
   (C2_page_slice_length_amended [rKO] [] { prediction := some "OK" } 2 8 (by decide) (by decide)
      (by decide)).2.2.2.2.2.2 (by decide)⟩

set_option maxRecDepth 4000 in
/-- C3 (refutation): the statement text `get_inspections` /
`load_inspections` send to the Row Store is built by interpolating the
untrusted filter values into the SQL string, so two FilterSets that differ
only in a filter value yield different query texts — the text is not
independent of the values and nothing is parameter-bound. -/
theorem C3_query_text_depends_on_values :
    count_query { factory := some "A" } ≠ count_query { factory := some "B" }
    ∧ data_query { search := some "x" } 1 8 ≠ data_query { search := some "y" } 1 8 := by
  decide

set_option maxRecDepth 4000 in
/-- C4 (counterexample): with only `region` present, `region` contributes
no conjunct at all to the count/page predicate (`where_clauses` is empty,
so the predicate is the unconditional `1=1`), while the stats query uses a
different predicate that conjoins the region condition — the full
predicate is not applied identically to count, page and stats queries. -/
theorem C4_region_counterexample :
    truthy ({ region := some "EMEA" } : FilterSet).region = true
    ∧ (where_clauses { region := some "EMEA" }).length = 0
    ∧ where_sql { region := some "EMEA" } = "1=1"
    ∧ stats_where { region := some "EMEA" } ≠ where_sql { region := some "EMEA" } := by
  decide

/-- C4 (amended): each present field among factory, camera, prediction,
defect_type, search, date_from, date_to contributes exactly one conjunct
and absent fields contribute none; `region` never contributes a conjunct
to the count/page predicate; the count and page queries share the same
predicate (both are built from `where_sql`), and the stats query applies
that identical predicate exactly when `region` is absent — when `region`
is present the stats query instead conjoins a region condition over the
factories join. -/
theorem C4_predicate_composition (f : FilterSet) :
    (where_clauses f).length = present_count f
    ∧ (∀ r, where_clauses { f with region := r } = where_clauses f)
    ∧ (∀ table factories, truthy f.region = false →
        stats_rows table factories f = filtered_inspections table f)
    ∧ (truthy f.region = true →
        stats_where f
          = "f.region = " ++ sqc ++ f.region.getD "" ++ sqc ++ " AND " ++ where_sql f) := by
  refine ⟨?_, fun r => rfl, fun table factories h => by simp [stats_rows, h],
    fun h => by simp [stats_where, h]⟩
  rw [where_clauses, present_count]
  split_ifs <;> simp

/-- Witness for C4 (amended) at concrete inputs. -/
theorem C4_predicate_composition_witness :
    stats_rows [] [] { factory := some "F" } = filtered_inspections [] { factory := some "F" }
    ∧ stats_where { region := some "EU" }
        = "f.region = " ++ sqc ++ "EU" ++ sqc ++ " AND " ++ where_sql { region := some "EU" } :=
  ⟨(C4_predicate_composition { factory := some "F" }).2.2.1 [] [] (by decide),
   (C4_predicate_composition { region := some "EU" }).2.2.2 (by decide)⟩

theorem length_filter_disjoint_le {α : Type} (p q : α → Bool)
    (hpq : ∀ a, p a = true → q a = false) :
    ∀ l : List α, (l.filter p).length + (l.filter q).length ≤ l.length := by
  intro l
  induction l with
  | nil => simp
  | cons a t ih =>
    by_cases hp : p a
    · have hq := hpq a hp
      simp only [List.filter_cons, hp, hq, List.length_cons, if_true, if_false,
        Bool.false_eq_true, ite_false, ite_true]
      omega
    · by_cases hq : q a <;>
        simp only [List.filter_cons, hp, hq, List.length_cons, Bool.false_eq_true,
          ite_false, ite_true] <;> omega

theorem length_filter_cover_eq {α : Type} (p q : α → Bool)
    (hpq : ∀ a, p a = true → q a = false) :
    ∀ l : List α, (∀ a ∈ l, p a = true ∨ q a = true) →
      (l.filter p).length + (l.filter q).length = l.length := by
  intro l
  induction l with
  | nil => simp
  | cons a t ih =>
    intro hcov
    have ht := ih (fun x hx => hcov x (List.mem_cons_of_mem a hx))
    rcases hcov a (List.mem_cons_self a t) with hp | hp
    · have hq := hpq a hp
      simp only [List.filter_cons, hp, hq, List.length_cons, Bool.false_eq_true,
        ite_false, ite_true]
      omega
    · by_cases hp2 : p a
      · have := hpq a hp2
        rw [hp] at this
        cases this
      · simp only [List.filter_cons, hp, hp2, List.length_cons, Bool.false_eq_true,
          ite_false, ite_true]
        omega

/-- C5 (counterexample): with the filter `prediction = OK` over a
two-record table holding one OK and one KO record, the code computes
`stats.total = 1` — the stats query runs under the same WHERE clause as
the count query — whereas a count of all records regardless of the filter
would be 2. -/
theorem C5_total_is_filtered_counterexample :
    (get_inspections [rOK, rKO] [] { prediction := some "OK" } 1 8).stats.total = 1
    ∧ ([rOK, rKO] : List Inspection).length = 2
    ∧ (get_inspections [rOK, rKO] [] { prediction := some "OK" } 1 8).stats.total
        ≠ ([rOK, rKO] : List Inspection).length := by
  decide

/-- C5 (amended): `stats.filtered` equals `total_count` under the current
filter; `stats.total` counts the records matching that same filter (with
the extra region restriction over the factories join when `region` is
set), so it equals `filtered` whenever `region` is absent — it is not a
count of all records regardless of filter; `ok_count + ko_count ≤ total`
always, with equality when every aggregated record has a defined OK/KO
prediction; in App1 (`load_inspections`, no region path) `total =
filtered` unconditionally. -/
theorem C5_stats_invariants (table : List Inspection) (factories : List Factory)
    (f : FilterSet) (page per_page : Nat) :
    ((get_inspections table factories f page per_page).stats.filtered
        = (get_inspections table factories f page per_page).pagination.total_count)
    ∧ (truthy f.region = false →
        (get_inspections table factories f page per_page).stats.total
          = (get_inspections table factories f page per_page).stats.filtered)
    ∧ ((get_inspections table factories f page per_page).stats.ok_count
        + (get_inspections table factories f page per_page).stats.ko_count
        ≤ (get_inspections table factories f page per_page).stats.total)
    ∧ ((∀ i ∈ stats_rows table factories f, i.prediction = "OK" ∨ i.prediction = "KO") →
        (get_inspections table factories f page per_page).stats.ok_count
          + (get_inspections table factories f page per_page).stats.ko_count
          = (get_inspections table factories f page per_page).stats.total)
    ∧ ((load_inspections table f page per_page).stats.total
        = (load_inspections table f page per_page).stats.filtered) := by
  have hdisj : ∀ i : Inspection,
      (i.prediction == "OK") = true → (i.prediction == "KO") = false := by
    intro i hi
    have : i.prediction = "OK" := by simpa using hi
    simp [this]
  refine ⟨rfl, fun h => ?_, ?_, fun hcov => ?_, rfl⟩
  · show (stats_rows table factories f).length = total_count_of table f
    simp [stats_rows, h]
    rfl
  · exact length_filter_disjoint_le _ _ hdisj (stats_rows table factories f)
  · refine length_filter_cover_eq _ _ hdisj (stats_rows table factories f) ?_
    intro i hi
    rcases hcov i hi with h1 | h1 <;> simp [h1]

/-- Witness for C5 (amended) at a concrete input. -/
theorem C5_stats_invariants_witness :
    ((get_inspections [rOK, rKO] [] {} 1 8).stats.total
        = (get_inspections [rOK, rKO] [] {} 1 8).stats.filtered)
    ∧ ((get_inspections [rOK, rKO] [] {} 1 8).stats.ok_count
        + (get_inspections [rOK, rKO] [] {} 1 8).stats.ko_count
        = (get_inspections [rOK, rKO] [] {} 1 8).stats.total) :=
  ⟨(C5_stats_invariants [rOK, rKO] [] {} 1 8).2.1 (by decide),
   (C5_stats_invariants [rOK, rKO] [] {} 1 8).2.2.2.1 (by decide)⟩

/-- A record with a tied timestamp and the lexicographically larger id,
physically first in the table. -/
def rTieB : Inspection :=
  ⟨"INSP-B", "F1", "CAM1", 5, "/p/b.jpg", "OK", none, 1, "v1", "2025-01-01"⟩

/-- A record with the same timestamp and the lexicographically smaller id,
physically second in the table. -/
def rTieA : Inspection :=
  ⟨"INSP-A", "F1", "CAM1", 5, "/p/a.jpg", "OK", none, 1, "v1", "2025-01-01"⟩

/-- C6 (counterexample): the page query orders by `timestamp DESC` only —
no `inspection_id` tie-break is requested — so ties surface in table
order.  Over a table holding two records with equal timestamps and ids
out of lexicographic order, the returned slice keeps the larger id first:
the result is not ordered by `inspection_id` ascending within the tie. -/
theorem C6_tie_break_counterexample :
    (get_inspections [rTieB, rTieA] [] {} 1 8).inspections = [rTieB, rTieA]
    ∧ rTieB.timestamp = rTieA.timestamp
    ∧ strLe rTieB.inspection_id rTieA.inspection_id = false
    ∧ strLe rTieA.inspection_id rTieB.inspection_id = true := by
  decide

theorem pairwise_page_rows (table : List Inspection) (f : FilterSet) (page per_page : Nat) :
    List.Pairwise tsGe (page_rows table f page per_page) := by
  rw [page_rows]
  exact List.Pairwise.sublist
    ((List.take_sublist _ _).trans (List.drop_sublist _ _))
    (List.sorted_insertionSort tsGe _)

/-- C6 (amended): for every query, the records of the returned slice are
ordered non-increasingly by `timestamp` (each earlier record's timestamp
is at least each later one's), in both `get_inspections` and
`load_inspections`; the order among records with equal timestamps is not
specified by the issued query (`ORDER BY timestamp DESC` only). -/
theorem C6_sorted_by_timestamp_desc (table : List Inspection) (factories : List Factory)
    (f : FilterSet) (page per_page : Nat) :
    List.Pairwise tsGe (get_inspections table factories f page per_page).inspections
    ∧ List.Pairwise tsGe (load_inspections table f page per_page).inspections :=
  ⟨pairwise_page_rows table f page per_page, pairwise_page_rows table f page per_page⟩

/-- C7: the fan-out returns one slot per path, in input order: the result
list has the same length as `paths`, the slot at index `i` is exactly the
joined state of the thread run on the path at index `i`, and the slot at
index `i` depends only on the behavior of the fetch for that path — any
two environments (one of which may fail or hang on other paths) that
agree on the path at index `i` produce the identical slot there, so one
item's failure or timeout never corrupts another index. -/
theorem C7_fetchAll_parallel_slots (env env2 : String → ItemBehavior) (paths : List String) :
    (fetchAll env paths).length = paths.length
    ∧ (∀ i : Nat, (fetchAll env paths)[i]?
        = (paths[i]?).map (fun p => slotAfterJoin (env p)))
    ∧ (∀ i : Nat, (paths[i]?).map env = (paths[i]?).map env2 →
        (fetchAll env paths)[i]? = (fetchAll env2 paths)[i]?) := by
  refine ⟨by simp [fetchAll], fun i => by simp [fetchAll], fun i h => ?_⟩
  rw [fetchAll, fetchAll, List.getElem?_map, List.getElem?_map]
  cases hp : paths[i]? with
  | none => rfl
  | some p =>
    rw [hp] at h
    have h2 : env p = env2 p := by simpa using h
    simp [h2]

/-- An environment failing on one path. -/
def envRaises : String → ItemBehavior :=
  fun p => if p = "bad.jpg" then ItemBehavior.raises "boom"
           else ItemBehavior.completes (some [1])

/-- An environment hanging on that path instead. -/
def envHangs : String → ItemBehavior :=
  fun p => if p = "bad.jpg" then ItemBehavior.hangs
           else ItemBehavior.completes (some [1])

/-- Witness for C7 at a concrete input: two environments that differ only
in how the second path misbehaves give the same slot at index 0. -/
theorem C7_fetchAll_parallel_slots_witness :
    (fetchAll envRaises ["ok.jpg", "bad.jpg"]).length
        = (["ok.jpg", "bad.jpg"] : List String).length
    ∧ ((fetchAll envRaises ["ok.jpg", "bad.jpg"])[0]?
        = ((["ok.jpg", "bad.jpg"] : List String)[0]?).map (fun p => slotAfterJoin (envRaises p)))
    ∧ ((fetchAll envRaises ["ok.jpg", "bad.jpg"])[0]?
        = (fetchAll envHangs ["ok.jpg", "bad.jpg"])[0]?) :=
  ⟨(C7_fetchAll_parallel_slots envRaises envHangs ["ok.jpg", "bad.jpg"]).1,
   (C7_fetchAll_parallel_slots envRaises envHangs ["ok.jpg", "bad.jpg"]).2.1 0,
   (C7_fetchAll_parallel_slots envRaises envHangs ["ok.jpg", "bad.jpg"]).2.2 0 (by decide)⟩

/-- C8: an empty path or a path not under `ALLOWED_PREFIX` makes
`stream_image` fail with HTTP 400 and the Blob Store is never invoked for
it (the invocation list is empty); a download failure on a valid-prefix
path surfaces as HTTP 500 (after exactly that one invocation). -/
theorem C8_image_path_validation (download : String → Except String Bytes) (path : String) :
    ((strStart path ALLOWED_PREFIX) = false →
      ∃ d, stream_image download path = (Except.error ⟨400, d⟩, []))
    ∧ (∀ e, (strStart path ALLOWED_PREFIX) = true → download path = Except.error e →
      stream_image download path
        = (Except.error ⟨500, "Failed to stream image: " ++ e⟩, [path])) := by
  constructor
  · intro h
    by_cases he : path.isEmpty
    · exact ⟨"path is required", by simp [stream_image, he]⟩
    · exact ⟨"path must start with " ++ ALLOWED_PREFIX, by simp [stream_image, he, h]⟩
  · intro e hsw hdl
    have he : path.isEmpty = false := by
      cases hemp : path.isEmpty
      · rfl
      · have hnil : path = "" := (String.isEmpty_iff path).mp hemp
        rw [hnil] at hsw
        exact absurd hsw (by decide)
    simp [stream_image, he, hsw, hdl]

/-- Witness for C8 at concrete inputs: an out-of-prefix path yields 400
with zero Blob Store invocations; a failing download under the prefix
yields 500. -/
theorem C8_image_path_validation_witness :
    (∃ d, stream_image (fun _ => Except.error "gone") "/etc/passwd"
        = (Except.error ⟨400, d⟩, []))
    ∧ stream_image (fun _ => Except.error "gone") (ALLOWED_PREFIX ++ "x.jpg")
        = (Except.error ⟨500, "Failed to stream image: " ++ "gone"⟩,
            [ALLOWED_PREFIX ++ "x.jpg"]) :=
  ⟨(C8_image_path_validation (fun _ => Except.error "gone") "/etc/passwd").1 (by decide),
   (C8_image_path_validation (fun _ => Except.error "gone") (ALLOWED_PREFIX ++ "x.jpg")).2
     "gone" (by decide) rfl⟩

/-- C9: `Lakebase.query` leaves the connection clean on both outcomes: on
execution/fetch failure the transaction is rolled back before the wrapped
error is re-raised (trace `execute, rollback`), on success it is committed
after the rows are fetched (trace `execute, fetchRows, commit`), and in
all cases the final transaction state of the connection is idle — never an
uncommitted failed transaction. -/
theorem C9_lakebase_query_tx (run : String → Except String (List Row)) (sql_query : String) :
    (∀ rows, run sql_query = Except.ok rows →
      Lakebase_query run sql_query
        = (Except.ok rows, [DbAction.execute sql_query, DbAction.fetchRows, DbAction.commit]))
    ∧ (∀ e, run sql_query = Except.error e →
      Lakebase_query run sql_query
        = (Except.error ("Query failed: " ++ e), [DbAction.execute sql_query, DbAction.rollback]))
    ∧ finalTx (Lakebase_query run sql_query).2 = TxState.idle := by
  refine ⟨fun rows hr => by simp [Lakebase_query, hr], fun e he => by simp [Lakebase_query, he], ?_⟩
  cases hr : run sql_query <;> simp [Lakebase_query, hr, finalTx, txAfter, List.foldl]

/-- Witness for C9 at concrete inputs: one succeeding and one failing
execution. -/
theorem C9_lakebase_query_tx_witness :
    Lakebase_query (fun _ => Except.ok ([] : List Row)) "SELECT 1"
        = (Except.ok ([] : List Row),
            [DbAction.execute "SELECT 1", DbAction.fetchRows, DbAction.commit])
    ∧ Lakebase_query (fun _ => Except.error "boom") "SELECT 1"
        = (Except.error ("Query failed: " ++ "boom"),
            [DbAction.execute "SELECT 1", DbAction.rollback]) :=
  ⟨(C9_lakebase_query_tx (fun _ => Except.ok ([] : List Row)) "SELECT 1").1 [] rfl,
   (C9_lakebase_query_tx (fun _ => Except.error "boom") "SELECT 1").2.1 "boom" rfl⟩

/-- C10: `load_image_from_volume` is total (never raises) and returns the
same undistinguished `none` for an empty path, for a path outside
`ALLOWED_PREFIX`, and for any Blob Store failure (including a missing
image): the caller cannot tell a validation failure from a fetch failure. -/
theorem C10_load_image_never_raises (download : String → Except String Bytes)
    (image_path : String) :
    (image_path = "" → load_image_from_volume download image_path = none)
    ∧ ((strStart image_path ALLOWED_PREFIX) = false →
        load_image_from_volume download image_path = none)
    ∧ (∀ e, download image_path = Except.error e →
        load_image_from_volume download image_path = none) := by
  refine ⟨fun h => by subst h; rfl, fun h => ?_, fun e he => ?_⟩
  · by_cases hemp : image_path.isEmpty <;> simp [load_image_from_volume, hemp, h]
  · by_cases hemp : image_path.isEmpty
    · simp [load_image_from_volume, hemp]
    · by_cases hsw : strStart image_path ALLOWED_PREFIX <;>
        simp [load_image_from_volume, hemp, hsw, he]

/-- Witness for C10 at concrete inputs: all three failure modes return
the same `none`. -/
theorem C10_load_image_never_raises_witness :
    load_image_from_volume (fun _ => Except.error "absent") "" = none
    ∧ load_image_from_volume (fun _ => Except.error "absent") "/etc/passwd" = none
    ∧ load_image_from_volume (fun _ => Except.error "absent") (ALLOWED_PREFIX ++ "x.jpg")
        = none :=
  ⟨(C10_load_image_never_raises (fun _ => Except.error "absent") "").1 rfl,
   (C10_load_image_never_raises (fun _ => Except.error "absent") "/etc/passwd").2.1 (by decide),
   (C10_load_image_never_raises (fun _ => Except.error "absent") (ALLOWED_PREFIX ++ "x.jpg")).2.2
     "absent" rfl⟩
